import Mathlib

/-!
Shallow embedding of the capypdf Python binding (src/python/capypdf.py) and of the
native content-stream / document state machine it drives.

Conventions of the embedding:
* Python doubles are modelled as rationals (`Rat`); the validation logic proved about
  here compares against zero or counts list lengths, which is unaffected by rounding.
* A Python method that mutates an object and may raise is modelled in state-passing
  style as a function returning the updated state paired with an optional exception
  (`State × Option CapyError`): when the exception component is `some e`, the returned
  state is the state at raise time, which for the eager validations modelled here is
  the unmodified input state.
* The native library (libcapypdf) is not part of the sources; where its behaviour
  decides a property, the definition carries a doc comment starting with
  `Modelled from the spec:` naming the missing native entry point.
-/

namespace CapyPDF

/-- Errors surfaced to Python callers. `invalidArgument`, `typeMismatch` and
`noPagesDefined` model a `CapyPDFException` carrying the given message;
`unbalancedState` models the native stack-underflow and finalize-balance error;
`argumentError` models a `ctypes.ArgumentError` raised by FFI argument
marshalling when a declared `argtypes` structure type does not match. -/
inductive CapyError where
  | invalidArgument (msg : String)
  | typeMismatch (msg : String)
  | unbalancedState
  | noPagesDefined (msg : String)
  | argumentError (msg : String)
  deriving DecidableEq, Repr

/-- Typed resource handles. Each Python handle class (`ImageId`, `ShadingId`,
`GraphicsStateId`, `TransparencyGroupId`, `PatternId`, `OptionalContentGroupId`,
`StructureItemId`, ...) is a distinct `ctypes.Structure` wrapping one `int32`;
the embedding collapses them into one sum type tagged by kind. -/
inductive Handle where
  | image (id : Int)
  | shading (id : Int)
  | graphicsState (id : Int)
  | transparencyGroup (id : Int)
  | patternId (id : Int)
  | ocg (id : Int)
  | structureItem (id : Int)
  deriving DecidableEq, Repr

/-- Payload of a `Color` object, as set by `set_rgb`, `set_gray`, `set_cmyk`,
`set_icc`, `set_separation`, `set_lab` or `set_pattern`
(src/python/capypdf.py:1248-1281). -/
inductive ColorPayload where
  | rgb (r g b : Rat)
  | gray (g : Rat)
  | cmyk (c m y k : Rat)
  | icc (id : Int) (values : List Rat)
  | separation (id : Int) (value : Rat)
  | lab (id : Int) (l a b : Rat)
  | patternOf (id : Int)
  deriving DecidableEq, Repr

/-- Content-stream operators recorded by a draw context. Only the operators the
verified properties mention are represented. -/
inductive PdfOp where
  | q
  | Q
  | w (lineWidth : Rat)
  | bmc (tag : String)
  | bdcOcg (id : Int)
  | bdcBuiltin (id : Int)
  | emc
  | doOp (id : Int)
  | gsOp (id : Int)
  | shOp (id : Int)
  | drawImageOp (id : Int)
  | strokeColor (c : ColorPayload)
  | nonstrokeColor (c : ColorPayload)
  deriving DecidableEq, Repr

/-- State of one native draw context: the append-only operator buffer, the
graphics-state-stack depth and the marked-content-stack depth (spec section 4.2). -/
structure DrawCtx where
  ops : List PdfOp
  qDepth : Nat
  mcDepth : Nat
  deriving DecidableEq, Repr

/-- A freshly created draw context: empty buffer, both stacks at depth zero. -/
def freshCtx : DrawCtx := { ops := [], qDepth := 0, mcDepth := 0 }

/-- State of a `Generator`: the ordered list of registered page buffers. -/
structure Generator where
  pages : List (List PdfOp)
  deriving DecidableEq, Repr

/-- A generator for a fresh document: no pages registered. -/
def freshGen : Generator := { pages := [] }

/-- The serialized output artifact produced by a successful `write`. -/
structure Artifact where
  pages : List (List PdfOp)
  deriving DecidableEq, Repr

/-- Modelled from the spec: the page-registration check inside the native
`capy_generator_add_page` (called by `Generator.add_page`,
src/python/capypdf.py:962-963) is not in the sources. Per spec section 4.2, a
buffer with nonzero graphics-state-stack or marked-content-stack depth cannot be
registered and fails with `UnbalancedState`; otherwise the buffer is appended to
the document page list. -/
def addPage (g : Generator) (dc : DrawCtx) : Generator × Option CapyError :=
  if dc.qDepth = 0 ∧ dc.mcDepth = 0 then
    ({ pages := g.pages ++ [dc.ops] }, none)
  else
    (g, some CapyError.unbalancedState)

/-- Modelled from the spec: the native `capy_generator_write` (called by
`Generator.write`, src/python/capypdf.py:1094-1095) is not in the sources. Per
spec sections 4.5 and 8, a document with zero registered pages fails with
`NoPagesDefined` (message observed by the test suite as "No pages defined.") and
produces no output artifact; otherwise serialization emits the page list. -/
def Generator.write (g : Generator) : Except CapyError Artifact :=
  if g.pages.isEmpty then
    Except.error (CapyError.noPagesDefined "No pages defined.")
  else
    Except.ok { pages := g.pages }

/-- State of a Python `DrawContext` page context: the underlying native context
plus whether `self.generator` still references the generator
(`DrawContext.__init__` sets it; `__exit__` clears it, src/python/capypdf.py:843-858). -/
structure PageDrawContext where
  ctx : DrawCtx
  hasGen : Bool
  deriving DecidableEq, Repr

/-- Model of `Generator.page_draw_context` (src/python/capypdf.py:956-957): creates a fresh
page draw context holding a reference to the generator. Creating a context does
not touch the document page list. -/
def Generator.pageDrawContext (g : Generator) : PageDrawContext × Generator :=
  ({ ctx := freshCtx, hasGen := true }, g)

/-- Modelled from the spec: the negative-line-width validation lives in the
native `capy_dc_cmd_w` (called by `DrawContextBase.cmd_w`,
src/python/capypdf.py:780-781), which is not in the sources. Per spec sections
4.2 and 8, a negative line width is rejected immediately with `InvalidArgument`
("Negative line width.") and the buffer is left untouched; a nonnegative width
appends the `w` operator. -/
def cmd_w (dc : DrawCtx) (lineWidth : Rat) : DrawCtx × Option CapyError :=
  if lineWidth < 0 then
    (dc, some (CapyError.invalidArgument "Negative line width."))
  else
    ({ dc with ops := dc.ops ++ [PdfOp.w lineWidth] }, none)

/-- Modelled from the spec: the graphics-state push inside the native
`capy_dc_cmd_q` (called by `DrawContextBase.cmd_q`, src/python/capypdf.py:748-749)
is not in the sources. Per spec section 4.2, `q` appends the operator and
increments the stack depth; it never fails. -/
def cmd_q (dc : DrawCtx) : DrawCtx :=
  { dc with ops := dc.ops ++ [PdfOp.q], qDepth := dc.qDepth + 1 }

/-- Modelled from the spec: the graphics-state pop inside the native
`capy_dc_cmd_Q` (called by `DrawContextBase.cmd_Q`, src/python/capypdf.py:751-752)
is not in the sources. Per spec section 4.2, `Q` decrements the stack depth and
fails with `UnbalancedState` if the depth is already zero, leaving the buffer
untouched. -/
def cmd_Q (dc : DrawCtx) : DrawCtx × Option CapyError :=
  if dc.qDepth = 0 then
    (dc, some CapyError.unbalancedState)
  else
    ({ dc with ops := dc.ops ++ [PdfOp.Q], qDepth := dc.qDepth - 1 }, none)

/-- A graphics-state stack instruction: a `cmd_q` call or a `cmd_Q` call. -/
inductive QOp where
  | push
  | pop
  deriving DecidableEq, Repr

/-- Runs a sequence of `cmd_q` and `cmd_Q` calls on a draw context, stopping at
the first call that raises. -/
def runQ : DrawCtx → List QOp → DrawCtx × Option CapyError
  | dc, [] => (dc, none)
  | dc, QOp.push :: rest => runQ (cmd_q dc) rest
  | dc, QOp.pop :: rest =>
    match cmd_Q dc with
    | (dc', none) => runQ dc' rest
    | (dc', some e) => (dc', some e)

/-- Abstract depth tracking for a `QOp` sequence started at depth `d`: returns
the final depth, or `none` if some pop occurs at depth zero. A sequence `l` is
balanced from a fresh context exactly when `runDepth 0 l = some 0`. -/
def runDepth : Nat → List QOp → Option Nat
  | d, [] => some d
  | d, QOp.push :: rest => runDepth (d + 1) rest
  | d, QOp.pop :: rest => if d = 0 then none else runDepth (d - 1) rest

/-- Whenever the abstract depth tracking succeeds, the concrete run raises no
error and lands in a context with exactly the tracked depth, with the
marked-content depth untouched, having appended only `q` and `Q` operators. -/
theorem runQ_of_runDepth :
    ∀ (l : List QOp) (dc : DrawCtx) (d' : Nat), runDepth dc.qDepth l = some d' →
      ∃ dc', runQ dc l = (dc', none) ∧ dc'.qDepth = d' ∧ dc'.mcDepth = dc.mcDepth := by
  intro l
  induction l with
  | nil =>
    intro dc d' h
    simp only [runDepth, Option.some.injEq] at h
    exact ⟨dc, rfl, h, rfl⟩
  | cons op rest ih =>
    intro dc d' h
    cases op with
    | push =>
      have hd : runDepth (cmd_q dc).qDepth rest = some d' := by
        simpa [runDepth, cmd_q] using h
      obtain ⟨dc', hrun, hq, hmc⟩ := ih (cmd_q dc) d' hd
      exact ⟨dc', by simpa [runQ] using hrun, hq, by simpa [cmd_q] using hmc⟩
    | pop =>
      by_cases h0 : dc.qDepth = 0
      · simp [runDepth, h0] at h
      · set dcnext : DrawCtx :=
          { dc with ops := dc.ops ++ [PdfOp.Q], qDepth := dc.qDepth - 1 } with hdcnext
        have hd : runDepth dcnext.qDepth rest = some d' := by
          simpa [runDepth, h0, hdcnext] using h
        obtain ⟨dc', hrun, hq, hmc⟩ := ih dcnext d' hd
        refine ⟨dc', ?_, hq, by simpa [hdcnext] using hmc⟩
        simp only [runQ, cmd_Q, h0, if_false]
        exact hrun

/-! ## C3: graphics-state stack balance -/

/-- C3: on a fresh-stacked context, a balanced `cmd_q`/`cmd_Q` sequence (never
popping below zero and ending at depth zero) runs without error and yields a
buffer that `addPage` registers successfully; a sequence that runs without error
but ends at nonzero depth yields a buffer whose registration fails with
`UnbalancedState`; and a `cmd_Q` at depth zero fails with `UnbalancedState` at
the call itself, leaving the context untouched. -/
theorem q_stack_balance (g : Generator) (dc : DrawCtx) (l : List QOp)
    (hq : dc.qDepth = 0) (hmc : dc.mcDepth = 0) :
    (runDepth 0 l = some 0 →
      ∃ dc', runQ dc l = (dc', none) ∧ (addPage g dc').2 = none) ∧
    (∀ d' : Nat, runDepth 0 l = some d' → d' ≠ 0 →
      ∃ dc', runQ dc l = (dc', none) ∧
        (addPage g dc').2 = some CapyError.unbalancedState) ∧
    (cmd_Q dc = (dc, some CapyError.unbalancedState)) := by
  refine ⟨?_, ?_, by simp [cmd_Q, hq]⟩
  · intro hbal
    obtain ⟨dc', hrun, hq', hmc'⟩ := runQ_of_runDepth l dc 0 (by rw [hq]; exact hbal)
    exact ⟨dc', hrun, by simp [addPage, hq', hmc ▸ hmc']⟩
  · intro d' hend hne
    obtain ⟨dc', hrun, hq', hmc'⟩ := runQ_of_runDepth l dc d' (by rw [hq]; exact hend)
    refine ⟨dc', hrun, ?_⟩
    simp [addPage, hq', hne]

/-- Concrete instantiation of `q_stack_balance` on a fresh context: the balanced
sequence `[q, q, Q, Q]` runs and registers, the sequence `[q]` runs but ends at
depth one so registration fails, and a lone `Q` fails immediately. -/
theorem q_stack_balance_witness :
    (runQ freshCtx [QOp.push, QOp.push, QOp.pop, QOp.pop]).2 = none ∧
    (addPage freshGen (runQ freshCtx [QOp.push, QOp.push, QOp.pop, QOp.pop]).1).2 = none ∧
    (runQ freshCtx [QOp.push]).2 = none ∧
    (addPage freshGen (runQ freshCtx [QOp.push]).1).2 = some CapyError.unbalancedState ∧
    (cmd_Q freshCtx = (freshCtx, some CapyError.unbalancedState)) := by
  obtain ⟨dc₁, hrun₁, hp₁⟩ :=
    (q_stack_balance freshGen freshCtx [QOp.push, QOp.push, QOp.pop, QOp.pop] rfl rfl).1 rfl
  obtain ⟨dc₂, hrun₂, hp₂⟩ :=
    (q_stack_balance freshGen freshCtx [QOp.push] rfl rfl).2.1 1 rfl one_ne_zero
  refine ⟨?_, ?_, ?_, ?_, (q_stack_balance freshGen freshCtx [] rfl rfl).2.2⟩
  · rw [hrun₁]
  · rw [hrun₁]; exact hp₁
  · rw [hrun₂]
  · rw [hrun₂]; exact hp₂

/-- A Python exception as observed by a `with` block: a `CapyPDFException`
(or ctypes error) from this library, the `AttributeError` raised when a cleared
`None` reference is used, or an arbitrary exception raised by user code inside
the block. -/
inductive PyExn where
  | capy (e : CapyError)
  | attrError
  | user (s : String)
  deriving DecidableEq, Repr

/-- Model of `MarkedContextManager` (src/python/capypdf.py:920-932): the scope token
returned by `cmd_BMC` and `cmd_BDC_builtin`; `attached` records whether its
`self.dc` reference is still set (`__exit__` clears it). -/
structure MarkedContextManager where
  attached : Bool
  deriving DecidableEq, Repr

/-- Model of `DrawContextBase.cmd_BMC` (src/python/capypdf.py:680-682): emits the `BMC`
operator and returns a `MarkedContextManager` scope token. The native buffer
append and marked-content-depth increment of `capy_dc_cmd_BMC` are modelled from
the spec (section 4.2: begin increments the marked-content stack). -/
def cmd_BMC (dc : DrawCtx) (tag : String) : MarkedContextManager × DrawCtx :=
  ({ attached := true },
   { dc with ops := dc.ops ++ [PdfOp.bmc tag], mcDepth := dc.mcDepth + 1 })

/-- Model of `DrawContextBase.cmd_BDC_builtin` (src/python/capypdf.py:674-678): checks the
argument is a `StructureItemId`, emits the `BDC` operator and returns a
`MarkedContextManager` scope token; any other handle kind raises. The native
append and depth increment are modelled from the spec (section 4.2). -/
def cmd_BDC_builtin (dc : DrawCtx) (h : Handle) :
    (DrawCtx × Option MarkedContextManager) × Option CapyError :=
  match h with
  | Handle.structureItem i =>
    (({ dc with ops := dc.ops ++ [PdfOp.bdcBuiltin i], mcDepth := dc.mcDepth + 1 },
      some { attached := true }), none)
  | _ => ((dc, none), some (CapyError.typeMismatch "Argument must be a structure item ID."))

/-- Model of `DrawContextBase.cmd_BDC` (src/python/capypdf.py:668-672): checks the
argument is an `OptionalContentGroupId` and emits the `BDC` operator, but — per
the source, which ends in the comment `FIXME, return a context manager.` —
returns no scope token (Python `None`). The native append and depth increment
are modelled from the spec (section 4.2). -/
def cmd_BDC (dc : DrawCtx) (h : Handle) :
    (DrawCtx × Option MarkedContextManager) × Option CapyError :=
  match h with
  | Handle.ocg i =>
    (({ dc with ops := dc.ops ++ [PdfOp.bdcOcg i], mcDepth := dc.mcDepth + 1 },
      none), none)
  | _ => ((dc, none), some (CapyError.typeMismatch "Argument must be an optional content group ID."))

/-- Model of `DrawContextBase.cmd_EMC` (src/python/capypdf.py:698-699) forwards to the
native `capy_dc_cmd_EMC`, which is not in the sources; modelled from the spec
(section 4.2: end decrements the marked-content stack with the same underflow
check as `Q`). -/
def cmd_EMC (dc : DrawCtx) : DrawCtx × Option CapyError :=
  if dc.mcDepth = 0 then
    (dc, some CapyError.unbalancedState)
  else
    ({ dc with ops := dc.ops ++ [PdfOp.emc], mcDepth := dc.mcDepth - 1 }, none)

/-- Model of `MarkedContextManager.__exit__` (src/python/capypdf.py:928-932): invoked by
the Python runtime on every exit path of the `with` block, normal or
exceptional; calls `cmd_EMC` on the draw context inside `try`, clears the `dc`
reference in `finally`, and lets the body exception propagate; if `cmd_EMC`
itself raises, that exception propagates instead. -/
def mcExit (m : MarkedContextManager) (dc : DrawCtx) (bodyExn : Option PyExn) :
    MarkedContextManager × DrawCtx × Option PyExn :=
  match m, cmd_EMC dc with
  | _, (dc', none) => ({ attached := false }, dc', bodyExn)
  | _, (dc', some e) => ({ attached := false }, dc', some (PyExn.capy e))

/-- Python `with ctx.cmd_BMC(tag): body` — entry returns the scope token, the
body transforms the context and may raise, and the token release runs on both
exit paths. A body is modelled as a function from the entered context to the
context at exit time plus an optional exception. -/
def withBMC (dc : DrawCtx) (tag : String) (body : DrawCtx → DrawCtx × Option PyExn) :
    DrawCtx × Option PyExn :=
  let entered := cmd_BMC dc tag
  let res := body entered.2
  let exited := mcExit entered.1 res.1 res.2
  (exited.2.1, exited.2.2)

/-- Python `with ctx.cmd_BDC_builtin(sid): body` — if the call raises, the block
is never entered; otherwise the returned token is released on both exit paths.
A successful call that returned no token would make the `with` statement fail
with an attribute error on `None`. -/
def withBDCbuiltin (dc : DrawCtx) (h : Handle) (body : DrawCtx → DrawCtx × Option PyExn) :
    DrawCtx × Option PyExn :=
  match cmd_BDC_builtin dc h with
  | ((dc1, some m), none) =>
    let res := body dc1
    let exited := mcExit m res.1 res.2
    (exited.2.1, exited.2.2)
  | ((dc1, none), none) => (dc1, some PyExn.attrError)
  | ((dc1, _), some e) => (dc1, some (PyExn.capy e))

/-! ## C4: marked-content scope tokens -/

/-- C4 counterexample: `cmd_BDC` with an `OptionalContentGroupId` on a fresh
context succeeds (emits the `BDC` operator, raises nothing) yet returns no scope
token, contradicting the claim that every marked-content-entering operation
returns a token whose release emits the matching `EMC`. -/
theorem cmd_BDC_returns_no_token :
    (cmd_BDC freshCtx (Handle.ocg 1)).2 = none ∧
    (cmd_BDC freshCtx (Handle.ocg 1)).1.2 = none ∧
    (cmd_BDC freshCtx (Handle.ocg 1)).1.1.ops = [PdfOp.bdcOcg 1] :=
  ⟨rfl, rfl, rfl⟩

/-- C4 as amended: `cmd_BMC` and `cmd_BDC_builtin` each return a scope token,
and releasing the token at block exit emits exactly one matching `EMC` operator
after the body output, on the normal exit path and on the exceptional one alike,
with the body exception propagating unchanged; this holds whenever the body has
not itself closed the scope (its exit context has nonzero marked-content depth).
`cmd_BDC` emits its `BDC` operator but returns no token. -/
theorem marked_scope_balance (dc : DrawCtx) (tag : String) (sid : Int)
    (body : DrawCtx → DrawCtx × Option PyExn) (dc₂ : DrawCtx) (exn : Option PyExn) :
    (body (cmd_BMC dc tag).2 = (dc₂, exn) → dc₂.mcDepth ≠ 0 →
      withBMC dc tag body =
        ({ dc₂ with ops := dc₂.ops ++ [PdfOp.emc], mcDepth := dc₂.mcDepth - 1 }, exn)) ∧
    ((cmd_BDC_builtin dc (Handle.structureItem sid)).1.2 = some { attached := true } ∧
      (body (cmd_BDC_builtin dc (Handle.structureItem sid)).1.1 = (dc₂, exn) →
        dc₂.mcDepth ≠ 0 →
        withBDCbuiltin dc (Handle.structureItem sid) body =
          ({ dc₂ with ops := dc₂.ops ++ [PdfOp.emc], mcDepth := dc₂.mcDepth - 1 }, exn))) ∧
    ((cmd_BDC dc (Handle.ocg sid)).1.2 = none) := by
  refine ⟨?_, ⟨rfl, ?_⟩, rfl⟩
  · intro hbody hdepth
    simp [withBMC, hbody, mcExit, cmd_EMC, hdepth]
  · intro hbody hdepth
    simp only [cmd_BDC_builtin] at hbody ⊢
    simp [withBDCbuiltin, cmd_BDC_builtin, hbody, mcExit, cmd_EMC, hdepth]

/-- Concrete instantiation of `marked_scope_balance`: a body that draws nothing
and raises a user exception still gets its `EMC` emitted by the token release,
and the exception propagates. -/
theorem marked_scope_balance_witness :
    withBMC freshCtx "Artifact" (fun d => (d, some (PyExn.user "boom")))
      = ({ ops := [PdfOp.bmc "Artifact", PdfOp.emc], qDepth := 0, mcDepth := 0 },
         some (PyExn.user "boom")) ∧
    withBDCbuiltin freshCtx (Handle.structureItem 3) (fun d => (d, some (PyExn.user "boom")))
      = ({ ops := [PdfOp.bdcBuiltin 3, PdfOp.emc], qDepth := 0, mcDepth := 0 },
         some (PyExn.user "boom")) := by
  have h := marked_scope_balance freshCtx "Artifact" 3
    (fun d => (d, some (PyExn.user "boom")))
    { ops := [PdfOp.bmc "Artifact"], qDepth := 0, mcDepth := 1 }
    (some (PyExn.user "boom"))
  have h' := marked_scope_balance freshCtx "Artifact" 3
    (fun d => (d, some (PyExn.user "boom")))
    { ops := [PdfOp.bdcBuiltin 3], qDepth := 0, mcDepth := 1 }
    (some (PyExn.user "boom"))
  exact ⟨h.1 rfl one_ne_zero, h'.2.1.2 rfl one_ne_zero⟩

/-! ## C1: write with zero pages -/

/-- C1: a `Generator` on which `write` is invoked while zero pages have been
registered fails with `NoPagesDefined` ("No pages defined.") and produces no
output artifact; creating a page draw context without registering it leaves the
page list unchanged, so such contexts do not count as pages. -/
theorem write_no_pages (g : Generator) (h : g.pages = []) :
    g.write = Except.error (CapyError.noPagesDefined "No pages defined.") ∧
    (∀ a : Artifact, g.write ≠ Except.ok a) ∧
    (g.pageDrawContext.2.pages = g.pages) := by
  refine ⟨?_, ?_, rfl⟩
  · simp [Generator.write, h]
  · intro a hok
    simp [Generator.write, h] at hok

/-- Concrete instantiation of `write_no_pages` at a fresh generator alongside a
context created and discarded without registration. -/
theorem write_no_pages_witness :
    freshGen.write = Except.error (CapyError.noPagesDefined "No pages defined.") ∧
    (∀ a : Artifact, freshGen.write ≠ Except.ok a) ∧
    (freshGen.pageDrawContext.2.pages = freshGen.pages) :=
  write_no_pages freshGen rfl

/-! ## C2: negative line width -/

/-- C2: `cmd_w` with a negative line-width argument raises `InvalidArgument`
("Negative line width.") and leaves the content buffer exactly as it was: the
returned context equals the input context, so every previously recorded operator
is preserved and nothing new is appended. -/
theorem cmd_w_negative (dc : DrawCtx) (lineWidth : Rat) (h : lineWidth < 0) :
    cmd_w dc lineWidth = (dc, some (CapyError.invalidArgument "Negative line width.")) := by
  simp [cmd_w, h]

/-- Concrete instantiation of `cmd_w_negative`: `cmd_w (-0.1)` on a context that
already recorded a `q` operator fails and preserves that operator. -/
theorem cmd_w_negative_witness :
    cmd_w { ops := [PdfOp.q], qDepth := 1, mcDepth := 0 } (-1/10)
      = ({ ops := [PdfOp.q], qDepth := 1, mcDepth := 0 },
         some (CapyError.invalidArgument "Negative line width.")) :=
  cmd_w_negative { ops := [PdfOp.q], qDepth := 1, mcDepth := 0 } (-1/10) (by norm_num)

/-- State of a `Type4Shading` (free-form triangle mesh): colorspace, bounding
box, and the mesh elements recorded so far (src/python/capypdf.py:1456-1487). -/
structure Type4Shading where
  triangles : List (List Rat × List ColorPayload)
  extensions : List (Int × List Rat × ColorPayload)
  deriving DecidableEq, Repr

/-- Model of `Type4Shading.add_triangle` (src/python/capypdf.py:1466-1474): requires
exactly 6 coordinates, then exactly 3 colors, raising with the source messages
otherwise before the native call that records the triangle; on success the
triangle is appended. -/
def Type4Shading.add_triangle (sh : Type4Shading) (coords : List Rat)
    (colors : List ColorPayload) : Type4Shading × Option CapyError :=
  if coords.length ≠ 6 then
    (sh, some (CapyError.invalidArgument "Must have exactly 6 floats."))
  else if colors.length ≠ 3 then
    (sh, some (CapyError.invalidArgument "Must have exactly 3 colors."))
  else
    ({ sh with triangles := sh.triangles ++ [(coords, colors)] }, none)

/-- State of a `Type6Shading` (tensor/patch mesh): the patches and extension
records recorded so far (src/python/capypdf.py:1490-1522). -/
structure Type6Shading where
  patches : List (List Rat × List ColorPayload)
  extensions : List (Int × List Rat × List ColorPayload)
  deriving DecidableEq, Repr

/-- Model of `Type6Shading.add_patch` (src/python/capypdf.py:1500-1508): requires exactly
24 coordinates, then exactly 4 colors, raising with the source messages
otherwise before the native call; on success the patch is appended. -/
def Type6Shading.add_patch (sh : Type6Shading) (coords : List Rat)
    (colors : List ColorPayload) : Type6Shading × Option CapyError :=
  if coords.length ≠ 24 then
    (sh, some (CapyError.invalidArgument "Must have exactly 24 floats."))
  else if colors.length ≠ 4 then
    (sh, some (CapyError.invalidArgument "Must have exactly 4 colors."))
  else
    ({ sh with patches := sh.patches ++ [(coords, colors)] }, none)

/-- Model of `Type6Shading.extend` (src/python/capypdf.py:1510-1522): the flag must be 1,
2 or 3 (checked first, raising "Bad flag value ..." otherwise), then exactly 16
coordinates and exactly 2 colors are required, raising with the source messages
otherwise before the native call; on success the extension is appended. -/
def Type6Shading.extend (sh : Type6Shading) (flag : Int) (coords : List Rat)
    (colors : List ColorPayload) : Type6Shading × Option CapyError :=
  if flag = 1 ∨ flag = 2 ∨ flag = 3 then
    if coords.length ≠ 16 then
      (sh, some (CapyError.invalidArgument "Must have exactly 16 floats."))
    else if colors.length ≠ 2 then
      (sh, some (CapyError.invalidArgument "Must have exactly 2 colors."))
    else
      ({ sh with extensions := sh.extensions ++ [(flag, coords, colors)] }, none)
  else
    (sh, some (CapyError.invalidArgument ("Bad flag value " ++ toString flag)))

/-! ## C5: mesh shading arity validation -/

/-- C5: `Type4Shading.add_triangle` succeeds exactly on 6 coordinates and 3
colors, `Type6Shading.add_patch` exactly on 24 coordinates and 4 colors, and
`Type6Shading.extend` exactly on an allowed flag (1, 2 or 3) with 16 coordinates
and 2 colors; in every failing case the call raises a validation error and
returns the shading unchanged, so no mutation has occurred. -/
theorem mesh_shading_arity (sh4 : Type4Shading) (sh6 : Type6Shading) (flag : Int)
    (coords coords6 coordsE : List Rat) (colors colors6 colorsE : List ColorPayload) :
    ((sh4.add_triangle coords colors).2 = none ↔
      coords.length = 6 ∧ colors.length = 3) ∧
    ((sh4.add_triangle coords colors).2 ≠ none → (sh4.add_triangle coords colors).1 = sh4) ∧
    ((sh6.add_patch coords6 colors6).2 = none ↔
      coords6.length = 24 ∧ colors6.length = 4) ∧
    ((sh6.add_patch coords6 colors6).2 ≠ none → (sh6.add_patch coords6 colors6).1 = sh6) ∧
    ((sh6.extend flag coordsE colorsE).2 = none ↔
      (flag = 1 ∨ flag = 2 ∨ flag = 3) ∧ coordsE.length = 16 ∧ colorsE.length = 2) ∧
    ((sh6.extend flag coordsE colorsE).2 ≠ none → (sh6.extend flag coordsE colorsE).1 = sh6) := by
  refine ⟨?_, ?_, ?_, ?_, ?_, ?_⟩
  · unfold Type4Shading.add_triangle
    by_cases h1 : coords.length = 6 <;> by_cases h2 : colors.length = 3 <;> simp [h1, h2]
  · unfold Type4Shading.add_triangle
    by_cases h1 : coords.length = 6 <;> by_cases h2 : colors.length = 3 <;> simp [h1, h2]
  · unfold Type6Shading.add_patch
    by_cases h1 : coords6.length = 24 <;> by_cases h2 : colors6.length = 4 <;> simp [h1, h2]
  · unfold Type6Shading.add_patch
    by_cases h1 : coords6.length = 24 <;> by_cases h2 : colors6.length = 4 <;> simp [h1, h2]
  · unfold Type6Shading.extend
    by_cases hf : flag = 1 ∨ flag = 2 ∨ flag = 3 <;>
      by_cases h1 : coordsE.length = 16 <;> by_cases h2 : colorsE.length = 2 <;>
        simp [hf, h1, h2]
  · unfold Type6Shading.extend
    by_cases hf : flag = 1 ∨ flag = 2 ∨ flag = 3 <;>
      by_cases h1 : coordsE.length = 16 <;> by_cases h2 : colorsE.length = 2 <;>
        simp [hf, h1, h2]

/-- Concrete instantiation of `mesh_shading_arity` on empty shadings: a 5-element
coordinate list makes `add_triangle` fail without mutation, correct arities make
`add_patch` succeed, and flag 4 makes `extend` fail without mutation. -/
theorem mesh_shading_arity_witness :
    ((Type4Shading.add_triangle ⟨[], []⟩ [0, 0, 1, 0, 1] [ColorPayload.gray 0,
        ColorPayload.gray 0, ColorPayload.gray 0]).2 ≠ none) ∧
    ((Type4Shading.add_triangle ⟨[], []⟩ [0, 0, 1, 0, 1] [ColorPayload.gray 0,
        ColorPayload.gray 0, ColorPayload.gray 0]).1 = ⟨[], []⟩) ∧
    ((Type6Shading.add_patch ⟨[], []⟩ (List.replicate 24 (0 : Rat))
        (List.replicate 4 (ColorPayload.gray 0))).2 = none) ∧
    ((Type6Shading.extend ⟨[], []⟩ 4 (List.replicate 16 (0 : Rat))
        (List.replicate 2 (ColorPayload.gray 0))).1 = ⟨[], []⟩) := by
  have h := mesh_shading_arity ⟨[], []⟩ ⟨[], []⟩ 4
    [0, 0, 1, 0, 1] (List.replicate 24 (0 : Rat)) (List.replicate 16 (0 : Rat))
    [ColorPayload.gray 0, ColorPayload.gray 0, ColorPayload.gray 0]
    (List.replicate 4 (ColorPayload.gray 0)) (List.replicate 2 (ColorPayload.gray 0))
  have hta : (Type4Shading.add_triangle ⟨[], []⟩ [0, 0, 1, 0, 1] [ColorPayload.gray 0,
      ColorPayload.gray 0, ColorPayload.gray 0]).2 ≠ none :=
    fun hc => absurd ((h.1).mp hc).1 (by decide)
  have hext : (Type6Shading.extend ⟨[], []⟩ 4 (List.replicate 16 (0 : Rat))
      (List.replicate 2 (ColorPayload.gray 0))).2 ≠ none :=
    fun hc => absurd ((h.2.2.2.2.1).mp hc).1 (by decide)
  exact ⟨hta, h.2.1 hta, (h.2.2.1).mpr ⟨by simp, by simp⟩, h.2.2.2.2.2 hext⟩

/-- Modelled from the spec: the `Type3Function` class (a Type 3 stitching
function) is absent from src/python/capypdf.py — only the test suite uses it
(src/test/capypdftests.py:670). Per spec sections 4.3 and 8, constructing a
stitching function from N sub-functions requires exactly N - 1 interior bounds;
a mismatched count fails with a validation error rather than constructing. -/
structure Type3Function where
  domain : List Rat
  functions : List Int
  bounds : List Rat
  encode : List Rat
  deriving DecidableEq, Repr

/-- Modelled from the spec: the validating constructor for `Type3Function`. -/
def mkType3Function (domain : List Rat) (functions : List Int) (bounds : List Rat)
    (encode : List Rat) : Except CapyError Type3Function :=
  if functions.length = bounds.length + 1 then
    Except.ok { domain := domain, functions := functions, bounds := bounds, encode := encode }
  else
    Except.error (CapyError.invalidArgument "Function count must equal bounds count plus one.")

/-! ## C6: stitching function bounds arity -/

/-- C6: constructing a Type 3 stitching function succeeds exactly when the
sub-function count equals the interior-bounds count plus one; any mismatched
count yields a validation error instead of a constructed function. -/
theorem type3_function_bounds (domain : List Rat) (functions : List Int)
    (bounds : List Rat) (encode : List Rat) :
    ((∃ f, mkType3Function domain functions bounds encode = Except.ok f) ↔
      functions.length = bounds.length + 1) ∧
    (functions.length ≠ bounds.length + 1 →
      mkType3Function domain functions bounds encode =
        Except.error (CapyError.invalidArgument
          "Function count must equal bounds count plus one.")) := by
  constructor
  · unfold mkType3Function
    by_cases h : functions.length = bounds.length + 1 <;> simp [h]
  · intro h
    simp [mkType3Function, h]

/-- Concrete instantiation of `type3_function_bounds`: two sub-functions with one
interior bound (the shape used by the test suite) construct successfully; two
sub-functions with two bounds fail. -/
theorem type3_function_bounds_witness :
    (∃ f, mkType3Function [0, 1] [10, 11] [7/10] [0, 1, 0, 1] = Except.ok f) ∧
    mkType3Function [0, 1] [10, 11] [7/10, 8/10] [0, 1, 0, 1] =
      Except.error (CapyError.invalidArgument
        "Function count must equal bounds count plus one.") :=
  ⟨(type3_function_bounds [0, 1] [10, 11] [7/10] [0, 1, 0, 1]).1.mpr rfl,
   (type3_function_bounds [0, 1] [10, 11] [7/10, 8/10] [0, 1, 0, 1]).2 (by decide)⟩

/-- Model of `DrawContextBase.draw_image` (src/python/capypdf.py:821-824): an explicit
isinstance check rejects any argument that is not an `ImageId` with a
`CapyPDFException` before the native call; an `ImageId` records the image-draw
operator. -/
def draw_image (dc : DrawCtx) (h : Handle) : DrawCtx × Option CapyError :=
  match h with
  | Handle.image i => ({ dc with ops := dc.ops ++ [PdfOp.drawImageOp i] }, none)
  | _ => (dc, some (CapyError.typeMismatch "Image id argument is not an image id object."))

/-- Model of `DrawContextBase.cmd_Do` (src/python/capypdf.py:693-696): an explicit
isinstance check rejects any argument that is not a `TransparencyGroupId` with a
`CapyPDFException` before the native call. -/
def cmd_Do (dc : DrawCtx) (h : Handle) : DrawCtx × Option CapyError :=
  match h with
  | Handle.transparencyGroup i => ({ dc with ops := dc.ops ++ [PdfOp.doOp i] }, none)
  | _ => (dc, some (CapyError.typeMismatch "Argument must be a transparency group id."))

/-- Model of `DrawContextBase.cmd_gs` (src/python/capypdf.py:713-716): an explicit
isinstance check rejects any argument that is not a `GraphicsStateId` with a
`CapyPDFException` before the native call. -/
def cmd_gs (dc : DrawCtx) (h : Handle) : DrawCtx × Option CapyError :=
  match h with
  | Handle.graphicsState i => ({ dc with ops := dc.ops ++ [PdfOp.gsOp i] }, none)
  | _ => (dc, some (CapyError.typeMismatch "Argument must be a graphics state id."))

/-- Model of `DrawContextBase.cmd_sh` (src/python/capypdf.py:774-775) performs no
isinstance check of its own; the declared ctypes signature
`capy_dc_cmd_sh [c_void_p, ShadingId]` (src/python/capypdf.py:346, applied by
the argtypes loop at lines 547-551) makes the FFI marshalling layer reject any
other handle structure with `ctypes.ArgumentError` before the native call runs,
so nothing is recorded. -/
def cmd_sh (dc : DrawCtx) (h : Handle) : DrawCtx × Option CapyError :=
  match h with
  | Handle.shading i => ({ dc with ops := dc.ops ++ [PdfOp.shOp i] }, none)
  | _ => (dc, some (CapyError.argumentError "argument 2: wrong handle structure type"))

/-! ## C7: handle-kind validation on resource-invoking operators -/

/-- C7: each resource-invoking operator accepts exactly its own handle kind —
`draw_image` an `ImageId`, `cmd_Do` a `TransparencyGroupId`, `cmd_gs` a
`GraphicsStateId`, `cmd_sh` a `ShadingId` — recording the corresponding
operator; a handle of any other kind makes the call fail with an error (a
`CapyPDFException` for the three wrapper-checked operators, a ctypes argument
error for `cmd_sh`) while the buffer is returned unchanged, so a mismatched
handle is never a silent no-op. -/
theorem resource_handle_kinds (dc : DrawCtx) (h : Handle) :
    ((draw_image dc h).2 = none ↔ ∃ i, h = Handle.image i) ∧
    ((∀ i, h ≠ Handle.image i) → draw_image dc h =
      (dc, some (CapyError.typeMismatch "Image id argument is not an image id object."))) ∧
    ((cmd_Do dc h).2 = none ↔ ∃ i, h = Handle.transparencyGroup i) ∧
    ((∀ i, h ≠ Handle.transparencyGroup i) → cmd_Do dc h =
      (dc, some (CapyError.typeMismatch "Argument must be a transparency group id."))) ∧
    ((cmd_gs dc h).2 = none ↔ ∃ i, h = Handle.graphicsState i) ∧
    ((∀ i, h ≠ Handle.graphicsState i) → cmd_gs dc h =
      (dc, some (CapyError.typeMismatch "Argument must be a graphics state id."))) ∧
    ((cmd_sh dc h).2 = none ↔ ∃ i, h = Handle.shading i) ∧
    ((∀ i, h ≠ Handle.shading i) → cmd_sh dc h =
      (dc, some (CapyError.argumentError "argument 2: wrong handle structure type"))) ∧
    (∀ i, draw_image dc (Handle.image i) =
      ({ dc with ops := dc.ops ++ [PdfOp.drawImageOp i] }, none)) ∧
    (∀ i, cmd_Do dc (Handle.transparencyGroup i) =
      ({ dc with ops := dc.ops ++ [PdfOp.doOp i] }, none)) ∧
    (∀ i, cmd_gs dc (Handle.graphicsState i) =
      ({ dc with ops := dc.ops ++ [PdfOp.gsOp i] }, none)) ∧
    (∀ i, cmd_sh dc (Handle.shading i) =
      ({ dc with ops := dc.ops ++ [PdfOp.shOp i] }, none)) := by
  refine ⟨?_, ?_, ?_, ?_, ?_, ?_, ?_, ?_,
    fun i => rfl, fun i => rfl, fun i => rfl, fun i => rfl⟩ <;>
    cases h <;> simp [draw_image, cmd_Do, cmd_gs, cmd_sh]

/-- Concrete instantiation of `resource_handle_kinds`: drawing a `ShadingId`
where an image is expected fails with the type error and an unchanged buffer,
and `cmd_sh` applied to an `ImageId` fails with the ctypes argument error. -/
theorem resource_handle_kinds_witness :
    draw_image freshCtx (Handle.shading 2) =
      (freshCtx, some (CapyError.typeMismatch "Image id argument is not an image id object.")) ∧
    cmd_sh freshCtx (Handle.image 2) =
      (freshCtx, some (CapyError.argumentError "argument 2: wrong handle structure type")) :=
  ⟨(resource_handle_kinds freshCtx (Handle.shading 2)).2.1 (fun i => by simp),
   (resource_handle_kinds freshCtx (Handle.image 2)).2.2.2.2.2.2.2.1 (fun i => by simp)⟩

/-- The argument actually passed to `set_stroke`/`set_nonstroke`: a `Color`
object, a bare `PatternId` handle, or (dynamically typed Python) anything
else. -/
inductive ColorArg where
  | colorObj (c : ColorPayload)
  | patternHandle (id : Int)
  | otherArg
  deriving DecidableEq, Repr

/-- Model of `Color.set_pattern` wrapping performed by `set_stroke`/`set_nonstroke`
(src/python/capypdf.py:793-796): a fresh `Color` whose payload is set to the
given pattern handle. -/
def wrapPattern (id : Int) : ColorPayload := ColorPayload.patternOf id

/-- Model of `DrawContextBase.set_stroke` (src/python/capypdf.py:792-799): a `PatternId`
argument is first wrapped into a pattern-tagged `Color`; then anything that is
not a `Color` raises; a `Color` records the stroke-color operator with its
payload. -/
def set_stroke (dc : DrawCtx) (arg : ColorArg) : DrawCtx × Option CapyError :=
  match arg with
  | ColorArg.patternHandle id =>
    ({ dc with ops := dc.ops ++ [PdfOp.strokeColor (wrapPattern id)] }, none)
  | ColorArg.colorObj c =>
    ({ dc with ops := dc.ops ++ [PdfOp.strokeColor c] }, none)
  | ColorArg.otherArg => (dc, some (CapyError.typeMismatch "Argument must be a Color object."))

/-- Model of `DrawContextBase.set_nonstroke` (src/python/capypdf.py:801-808): identical
flow to `set_stroke`, recording the nonstroke-color operator. -/
def set_nonstroke (dc : DrawCtx) (arg : ColorArg) : DrawCtx × Option CapyError :=
  match arg with
  | ColorArg.patternHandle id =>
    ({ dc with ops := dc.ops ++ [PdfOp.nonstrokeColor (wrapPattern id)] }, none)
  | ColorArg.colorObj c =>
    ({ dc with ops := dc.ops ++ [PdfOp.nonstrokeColor c] }, none)
  | ColorArg.otherArg => (dc, some (CapyError.typeMismatch "Argument must be a Color object."))

/-! ## C8: stroke and nonstroke color arguments -/

/-- C8: `set_stroke` and `set_nonstroke` accept a `Color` object (any payload)
or a bare `PatternId`; a `PatternId` behaves exactly as the pattern-tagged
`Color` it is wrapped into, every accepted argument records exactly one
color-setting operator, and an argument of any other type raises while the
buffer is returned unchanged with nothing recorded. -/
theorem color_argument_polymorphism (dc : DrawCtx) (id : Int) (c : ColorPayload) :
    (set_stroke dc (ColorArg.patternHandle id) =
      set_stroke dc (ColorArg.colorObj (wrapPattern id))) ∧
    (set_nonstroke dc (ColorArg.patternHandle id) =
      set_nonstroke dc (ColorArg.colorObj (wrapPattern id))) ∧
    (set_stroke dc (ColorArg.colorObj c) =
      ({ dc with ops := dc.ops ++ [PdfOp.strokeColor c] }, none)) ∧
    (set_nonstroke dc (ColorArg.colorObj c) =
      ({ dc with ops := dc.ops ++ [PdfOp.nonstrokeColor c] }, none)) ∧
    (set_stroke dc ColorArg.otherArg =
      (dc, some (CapyError.typeMismatch "Argument must be a Color object."))) ∧
    (set_nonstroke dc ColorArg.otherArg =
      (dc, some (CapyError.typeMismatch "Argument must be a Color object."))) :=
  ⟨rfl, rfl, rfl, rfl, rfl, rfl⟩

/-- Model of `get_error_message` (src/python/capypdf.py:557-558): looks up the message
text for an error code. The native message table `capy_error_message` together
with its UTF-8 decoding is abstracted as the function argument `table`. -/
def get_error_message (table : Int → String) (errorcode : Int) : String :=
  table errorcode

/-- Model of `check_error` (src/python/capypdf.py:563-565) composed with
`raise_with_error` (lines 560-561): a nonzero error code raises a
`CapyPDFException` whose message is exactly the looked-up text; a zero code
returns normally. Every wrapped API call in the binding routes its native
return code through this function. -/
def check_error (table : Int → String) (errorcode : Int) : Except String Unit :=
  if errorcode ≠ 0 then
    Except.error (get_error_message table errorcode)
  else
    Except.ok ()

/-! ## C9: error-code to exception translation -/

/-- C9: `check_error` raises exactly when the native error code is nonzero; the
raised exception message is exactly the error-message lookup for that code, and
a zero code returns normally, for every message table and every code. -/
theorem check_error_iff (table : Int → String) (errorcode : Int) :
    ((∃ m, check_error table errorcode = Except.error m) ↔ errorcode ≠ 0) ∧
    (errorcode ≠ 0 →
      check_error table errorcode = Except.error (get_error_message table errorcode)) ∧
    (errorcode = 0 → check_error table errorcode = Except.ok ()) := by
  refine ⟨?_, ?_, ?_⟩
  · unfold check_error
    by_cases hc : errorcode = 0 <;> simp [hc]
  · intro hc
    simp [check_error, hc]
  · intro hc
    simp [check_error, hc]

/-- Concrete instantiation of `check_error_iff` at a table sending code 4 to the
message observed by the test suite: code 4 raises with exactly that message and
code 0 does not raise. -/
theorem check_error_iff_witness :
    check_error (fun c => if c = 4 then "No pages defined." else "Other error.") 4 =
      Except.error "No pages defined." ∧
    check_error (fun c => if c = 4 then "No pages defined." else "Other error.") 0 =
      Except.ok () :=
  ⟨(check_error_iff (fun c => if c = 4 then "No pages defined." else "Other error.") 4).2.1
      (by decide),
   (check_error_iff (fun c => if c = 4 then "No pages defined." else "Other error.") 0).2.2 rfl⟩

/-- Model of `DrawContext.__exit__` (src/python/capypdf.py:854-858): runs on every exit
path of `with generator.page_draw_context() as ctx`; calls
`self.generator.add_page(self)` inside `try`, clears `self.generator` in
`finally`, and lets the body exception propagate. If `add_page` raises, that
exception propagates instead; if the generator reference was already cleared,
the attribute access on `None` raises. -/
def dcExit (g : Generator) (pdc : PageDrawContext) (bodyExn : Option PyExn) :
    Generator × PageDrawContext × Option PyExn :=
  if pdc.hasGen then
    match addPage g pdc.ctx with
    | (g', none) => (g', { pdc with hasGen := false }, bodyExn)
    | (_, some e) => (g, { pdc with hasGen := false }, some (PyExn.capy e))
  else
    (g, pdc, some PyExn.attrError)

/-! ## C10: page context registration on scope exit -/

/-- C10 counterexample: a body that pushed one graphics state (`cmd_q`) and then
raised leaves an unbalanced context, and exiting its scope commits no page — the
generator keeps its empty page list — while the body exception is replaced by
the `UnbalancedState` error that `add_page` raised; this contradicts the
unqualified claim that the partially drawn page is always committed and the
body exception always propagates. The generator reference is cleared anyway. -/
theorem unbalanced_exit_commits_no_page :
    dcExit freshGen { ctx := cmd_q freshCtx, hasGen := true } (some (PyExn.user "boom")) =
      (freshGen, { ctx := cmd_q freshCtx, hasGen := false },
        some (PyExn.capy CapyError.unbalancedState)) :=
  rfl

/-- C10 as amended: exiting a `with page_draw_context()` scope always invokes
`add_page`, whether or not the body raised. When the context stacks are
balanced, the recorded page is committed, the body exception propagates and the
generator reference is cleared; when they are unbalanced, no page is committed,
the `UnbalancedState` exception from `add_page` propagates in place of the body
exception, and the generator reference is still cleared. A second exit through
the now-cleared scope registers nothing (so a scope registers at most once),
and merely creating a page draw context leaves the document page list
unchanged, so a context discarded without registration contributes no page. -/
theorem page_context_exit_cases (g : Generator) (pdc : PageDrawContext)
    (bodyExn : Option PyExn) :
    (pdc.hasGen = true → pdc.ctx.qDepth = 0 → pdc.ctx.mcDepth = 0 →
      dcExit g pdc bodyExn =
        ({ pages := g.pages ++ [pdc.ctx.ops] }, { pdc with hasGen := false }, bodyExn)) ∧
    (pdc.hasGen = true → ¬(pdc.ctx.qDepth = 0 ∧ pdc.ctx.mcDepth = 0) →
      dcExit g pdc bodyExn =
        (g, { pdc with hasGen := false }, some (PyExn.capy CapyError.unbalancedState))) ∧
    (pdc.hasGen = false → (dcExit g pdc bodyExn).1 = g ∧
      (dcExit g pdc bodyExn).2.2 = some PyExn.attrError) ∧
    (g.pageDrawContext.2.pages = g.pages) := by
  refine ⟨?_, ?_, ?_, rfl⟩
  · intro hgen hq hmc
    simp [dcExit, hgen, addPage, hq, hmc]
  · intro hgen hne
    simp [dcExit, hgen, addPage, hne]
  · intro hgen
    simp [dcExit, hgen]

/-- Concrete instantiation of `page_context_exit_cases`: a balanced fresh
context whose body raised still commits its (empty) page with the exception
propagating, an unbalanced context (one open `q`) commits nothing and surfaces
`UnbalancedState`, and a second exit of a cleared scope registers nothing. -/
theorem page_context_exit_cases_witness :
    (dcExit freshGen { ctx := freshCtx, hasGen := true } (some (PyExn.user "boom")) =
      ({ pages := [[]] }, { ctx := freshCtx, hasGen := false },
        some (PyExn.user "boom"))) ∧
    (dcExit freshGen { ctx := cmd_q freshCtx, hasGen := true } (some (PyExn.user "boom")) =
      (freshGen, { ctx := cmd_q freshCtx, hasGen := false },
        some (PyExn.capy CapyError.unbalancedState))) ∧
    ((dcExit freshGen { ctx := freshCtx, hasGen := false } none).1 = freshGen ∧
      (dcExit freshGen { ctx := freshCtx, hasGen := false } none).2.2 =
        some PyExn.attrError) := by
  have h₁ := page_context_exit_cases freshGen { ctx := freshCtx, hasGen := true }
    (some (PyExn.user "boom"))
  have h₂ := page_context_exit_cases freshGen { ctx := cmd_q freshCtx, hasGen := true }
    (some (PyExn.user "boom"))
  have h₃ := page_context_exit_cases freshGen { ctx := freshCtx, hasGen := false } none
  exact ⟨h₁.1 rfl rfl rfl, h₂.2.1 rfl (by decide), h₃.2.2.1 rfl⟩

end CapyPDF
